import Mathlib

/-!
Shallow embedding of the RoRnet protocol-connection core of the
RoRServerBot repository (Python), together with proofs about its
operations.

Conventions of the embedding:
* Python `bytes` values are lists of naturals in 0..255 (`List Byte`);
  `str` values that travel on the wire are modelled by their UTF-8 byte
  lists.
* Python `float` arithmetic is modelled exactly over `ℚ`.  The source
  compares `math.sqrt(d2) < 10`; over non-negative reals this is
  equivalent to `d2 < 100`, so the model stores and compares squared
  distances.  A distance accumulator (`meters_walked` etc.) is modelled
  as the list of squared increments that the source adds, in order: the
  float held by the source is the sum of the square roots of the list
  entries, so the accumulator is unchanged exactly when the list is
  unchanged or the appended entry is zero.
* Fallible operations (Python `raise`) return `Except`/`Option`.
* Python dicts (insertion ordered) are association lists with
  update-in-place / append-if-new semantics (`aset`, `alookup`).
-/

namespace RoRBot

/-- A byte of a Python `bytes` object. -/
abbrev Byte := Nat

/-- UTF-8 (here always ASCII) bytes of a fixed protocol string literal. -/
def asciiBytes (s : String) : List Byte := s.data.map Char.toNat

/-! ## Enumerations (`ror_bot/enums.py`) -/

/-- Model of `MessageType(IntEnum)` from `enums.py`. -/
inductive MessageType
  | hello | serverFull | wrongPassword | wrongVersion | banned | welcome
  | serverVersion | serverSettings | userInfo | masterServerInfo | netQuality
  | gameCmd | userJoin | userLeave | chat | privateChat
  | streamRegister | streamRegisterResult | streamUnregister | streamData
  | streamDataDiscardable | userInfoLegacy
deriving DecidableEq, Repr

/-- The wire code of each message type (1025.. for the primary table and
1003 for the legacy entry), as declared in `enums.py`. -/
def MessageType.code : MessageType → Nat
  | .hello => 1025
  | .serverFull => 1026
  | .wrongPassword => 1027
  | .wrongVersion => 1028
  | .banned => 1029
  | .welcome => 1030
  | .serverVersion => 1031
  | .serverSettings => 1032
  | .userInfo => 1033
  | .masterServerInfo => 1034
  | .netQuality => 1035
  | .gameCmd => 1036
  | .userJoin => 1037
  | .userLeave => 1038
  | .chat => 1039
  | .privateChat => 1040
  | .streamRegister => 1041
  | .streamRegisterResult => 1042
  | .streamUnregister => 1043
  | .streamData => 1044
  | .streamDataDiscardable => 1045
  | .userInfoLegacy => 1003

/-- Model of `StreamType(IntEnum)` from `enums.py` (ACTOR=0, CHARACTER=1, AI=2, CHAT=3). -/
inductive StreamType
  | actor | character | ai | chat
deriving DecidableEq, Repr

/-- Model of `ActorType(Enum)` from `enums.py`. -/
inductive ActorType
  | truck | car | load | airplane | boat | trailer | train | fixed
deriving DecidableEq, Repr

/-- Value of `ActorStreamStatus.SUCCESS` from `enums.py`. -/
def ActorStreamStatus.SUCCESS : Int := 1

/-- The 25-entry `PlayerColor(Enum)` palette from `enums.py`, in
declaration order, as UTF-8 bytes of the hex strings. -/
def playerColors : List (List Byte) :=
  [asciiBytes ("#00CC00"), asciiBytes ("#0066B3"), asciiBytes ("#FF8000"),
   asciiBytes ("#FFCC00"), asciiBytes ("#CCFF00"), asciiBytes ("#FF0000"),
   asciiBytes ("#808080"), asciiBytes ("#008F00"), asciiBytes ("#B35A00"),
   asciiBytes ("#B38F00"), asciiBytes ("#8FB300"), asciiBytes ("#B30000"),
   asciiBytes ("#BEBEBE"), asciiBytes ("#80FF80"), asciiBytes ("#80C9FF"),
   asciiBytes ("#FFC080"), asciiBytes ("#FFE680"), asciiBytes ("#AA80FF"),
   asciiBytes ("#EE00CC"), asciiBytes ("#FF8080"), asciiBytes ("#666600"),
   asciiBytes ("#FFBFFF"), asciiBytes ("#00FFCC"), asciiBytes ("#CC6699"),
   asciiBytes ("#999900")]

/-- Value of `Color.WHITE.value` from `enums.py`. -/
def colorWhite : List Byte := asciiBytes ("#FFFFFF")

/-! ## Byte-level helpers for the wire codec (`struct` module semantics) -/

/-- Little-endian bytes of the low 32 bits of `n` (the layout `struct.pack`
produces for the `I`/`i` format items). -/
def le32 (n : Nat) : List Byte :=
  [n % 256, n / 256 % 256, n / 65536 % 256, n / 16777216 % 256]

/-- Read a 4-byte little-endian unsigned integer. -/
def readLE32 : List Byte → Nat
  | [a, b, c, d] => a + 256 * b + 65536 * c + 16777216 * d
  | _ => 0

/-- Model of `struct.pack("I", n)`: requires 0 ≤ n < 2^32, else `struct.error`. -/
def u32encode (n : Int) : Option (List Byte) :=
  if 0 ≤ n ∧ n < 4294967296 then some (le32 n.toNat) else none

/-- Model of `struct.pack("i", i)`: requires a signed 32-bit value, else
`struct.error`; encodes twos-complement little-endian. -/
def i32encode (i : Int) : Option (List Byte) :=
  if -2147483648 ≤ i ∧ i < 2147483648 then
    some (le32 (i % 4294967296).toNat)
  else none

/-- Model of `struct.unpack("I", bs)` on 4 bytes. -/
def readU32 (bs : List Byte) : Int := (readLE32 bs : Int)

/-- Model of `struct.unpack("i", bs)` on 4 bytes (twos-complement). -/
def readI32 (bs : List Byte) : Int :=
  if readLE32 bs < 2147483648 then (readLE32 bs : Int)
  else (readLE32 bs : Int) - 4294967296

/-- Model of `struct.pack("<w>s", s)`: the bytes are truncated to `w` or padded on
the right with NUL bytes up to `w`. -/
def padTo (w : Nat) (s : List Byte) : List Byte :=
  s.take w ++ List.replicate (w - s.length) 0

/-- Remove leading NUL bytes (the left half of Python NUL stripping, `str.strip` with the NUL character). -/
def lstripNul (s : List Byte) : List Byte := s.dropWhile (fun b => b == 0)

/-- Remove trailing NUL bytes (the right half of Python NUL stripping, `str.strip` with the NUL character). -/
def rstripNul (s : List Byte) : List Byte :=
  (s.reverse.dropWhile (fun b => b == 0)).reverse

/-- Python NUL stripping, `str.strip` with the NUL character: strips NUL bytes from both ends, as the
pydantic validators in `models/messages.py` do. -/
def stripNul (s : List Byte) : List Byte := rstripNul (lstripNul s)

/-! ## UserInfo and its 359-byte wire codec (`models/messages.py`) -/

/-- Model of `UserInfo(Message)` from `models/messages.py`.  String fields are the
UTF-8 bytes of the Python strings; the pydantic validators strip NUL
bytes from both ends of every string field at construction. -/
structure UserInfo where
  uniqueId : Int := 0
  authStatus : Int
  slotNum : Int := -1
  colorNum : Int := -1
  username : List Byte
  userToken : List Byte
  serverPassword : List Byte
  language : List Byte
  clientName : List Byte
  clientVersion : List Byte
  clientGuid : List Byte
  sessionType : List Byte
  sessionOptions : List Byte
deriving DecidableEq, Repr

/-- Model of `UserInfo.pack`: `struct.pack` of "Iiii40s40s40s10s10s25s40s10s128s"
over the fields in declaration order; fails (`struct.error`) when an
integer does not fit its format item. -/
def encodeUserInfo (u : UserInfo) : Option (List Byte) := do
  let f1 ← u32encode u.uniqueId
  let f2 ← i32encode u.authStatus
  let f3 ← i32encode u.slotNum
  let f4 ← i32encode u.colorNum
  some (f1 ++ f2 ++ f3 ++ f4
    ++ padTo 40 u.username ++ padTo 40 u.userToken
    ++ padTo 40 u.serverPassword ++ padTo 10 u.language
    ++ padTo 10 u.clientName ++ padTo 25 u.clientVersion
    ++ padTo 40 u.clientGuid ++ padTo 10 u.sessionType
    ++ padTo 128 u.sessionOptions)

/-- The field at byte offset `off` with width `len`. -/
def fieldAt (bs : List Byte) (off len : Nat) : List Byte :=
  (bs.drop off).take len

/-- Model of `UserInfo.from_bytes`: `struct.unpack` of the 359-byte layout
(`struct.error` on any other length) followed by the pydantic validators
stripping NUL bytes from both ends of every string field. -/
def decodeUserInfo (bs : List Byte) : Option UserInfo :=
  if bs.length = 359 then
    some
      { uniqueId := readU32 (fieldAt bs 0 4)
        authStatus := readI32 (fieldAt bs 4 4)
        slotNum := readI32 (fieldAt bs 8 4)
        colorNum := readI32 (fieldAt bs 12 4)
        username := stripNul (fieldAt bs 16 40)
        userToken := stripNul (fieldAt bs 56 40)
        serverPassword := stripNul (fieldAt bs 96 40)
        language := stripNul (fieldAt bs 136 10)
        clientName := stripNul (fieldAt bs 146 10)
        clientVersion := stripNul (fieldAt bs 156 25)
        clientGuid := stripNul (fieldAt bs 181 40)
        sessionType := stripNul (fieldAt bs 221 10)
        sessionOptions := stripNul (fieldAt bs 231 128) }
  else none

/-- A byte string that fits a `<w>s` format item and is a possible value
of a pydantic-validated string field: its length is at most `w` and it
carries no leading or trailing NUL bytes (the construction validator
`strip_nulls_after` already removed them). -/
def validStr (w : Nat) (s : List Byte) : Prop :=
  s.length ≤ w ∧ lstripNul s = s ∧ rstripNul s = s

instance (w : Nat) (s : List Byte) : Decidable (validStr w s) := by
  unfold validStr; infer_instance

/-- A `UserInfo` value whose integer fields fit their `struct` format
items (as presupposed by its 359-byte encoding existing) and whose
string fields fit their declared widths. -/
def UserInfo.wellFormed (u : UserInfo) : Prop :=
  (0 ≤ u.uniqueId ∧ u.uniqueId < 4294967296)
  ∧ (-2147483648 ≤ u.authStatus ∧ u.authStatus < 2147483648)
  ∧ (-2147483648 ≤ u.slotNum ∧ u.slotNum < 2147483648)
  ∧ (-2147483648 ≤ u.colorNum ∧ u.colorNum < 2147483648)
  ∧ validStr 40 u.username ∧ validStr 40 u.userToken
  ∧ validStr 40 u.serverPassword ∧ validStr 10 u.language
  ∧ validStr 10 u.clientName ∧ validStr 25 u.clientVersion
  ∧ validStr 40 u.clientGuid ∧ validStr 10 u.sessionType
  ∧ validStr 128 u.sessionOptions

instance (u : UserInfo) : Decidable u.wellFormed := by
  unfold UserInfo.wellFormed; infer_instance

/-! ## Vectors (`models/vector.py`) -/

/-- Model of `Vector3`, with exact rational coordinates standing for the Python
floats. -/
structure Vector3 where
  x : ℚ := 0
  y : ℚ := 0
  z : ℚ := 0
deriving DecidableEq, Repr

/-- The square of `Vector3.distance` (which the source takes the square
root of; comparisons of non-negative distances against a bound `b` are
equivalent to comparisons of this value against `b^2`). -/
def Vector3.distSq (a b : Vector3) : ℚ :=
  (a.x - b.x) * (a.x - b.x) + (a.y - b.y) * (a.y - b.y)
    + (a.z - b.z) * (a.z - b.z)

/-- The Python chained comparison `(-1, -1, -1) < v < (1, 1, 1)` resolved
through `Vector3.__gt__` / `Vector3.__lt__`: every coordinate strictly
between −1 and 1. -/
def Vector3.inUnitBox (v : Vector3) : Bool :=
  (-1 < v.x && v.x < 1) && (-1 < v.y && v.y < 1) && (-1 < v.z && v.z < 1)

/-! ## Stream registers and users (`models/messages.py`, `user.py`) -/

/-- The discriminated `StreamRegister` union (`ChatStreamRegister`,
`CharacterStreamRegister`, `ActorStreamRegister`) flattened into one
record, discriminated by `type`:  `regData` is the chat/character tail,
`bufferSize`/`timestamp`/`skin`/`sectionConfig` the actor tail.
`actorType`, `position` and `rotation` are the non-wire bookkeeping
fields the Python models carry.  (`rotation` holds the scalar radians
the stream-data handler stores.) -/
structure StreamRegister where
  type : StreamType
  status : Int := 0
  originSourceId : Int := 0
  originStreamId : Int := 0
  name : List Byte := []
  regData : List Byte := []
  bufferSize : Int := 0
  timestamp : Int := 0
  skin : List Byte := []
  sectionConfig : List Byte := []
  actorType : Option ActorType := none
  position : Vector3 := {}
  rotation : ℚ := 0
deriving DecidableEq, Repr

/-- Model of `UserStats` (`models/stats.py`): each float accumulator is modelled
by the ordered list of squared increments the source adds; the float is
the sum of their square roots. -/
structure UserStats where
  metersDriven : List ℚ := []
  metersSailed : List ℚ := []
  metersWalked : List ℚ := []
  metersFlown : List ℚ := []
deriving DecidableEq, Repr

/-- Model of `CurrentStream` (`user.py`). -/
structure CurrentStream where
  uniqueId : Int := -1
  streamId : Int := -1
deriving DecidableEq, Repr

/-- Model of `User` (`user.py`): the per-user registry entry. -/
structure User where
  info : UserInfo
  characterStreamId : Int := -1
  chatStreamId : Int := -1
  stats : UserStats := {}
  currentStream : CurrentStream := {}
  streams : List (Int × StreamRegister) := []
deriving DecidableEq, Repr

/-- Python dict lookup. -/
def alookup {α : Type} : List (Int × α) → Int → Option α
  | [], _ => none
  | (k2, v) :: rest, k => if k2 = k then some v else alookup rest k

/-- Python dict item assignment: update in place, append if new. -/
def aset {α : Type} : List (Int × α) → Int → α → List (Int × α)
  | [], k, v => [(k, v)]
  | (k2, v2) :: rest, k, v =>
    if k2 = k then (k2, v) :: rest else (k2, v2) :: aset rest k v

/-- Model of `User.add_stream` (`user.py`).  The actor-type classification
(`TruckFile.from_filename`, an external JSON map plus a filename regex)
is injected as `classify`; `none` stands for an unclassifiable filename,
on which the Python raises a validation error before storing. -/
def User.addStream (classify : List Byte → Option ActorType) (u : User)
    (s : StreamRegister) : Option User :=
  match s.type with
  | .actor =>
    match classify s.name with
    | none => none
    | some at2 =>
      some { u with streams := aset u.streams s.originStreamId
                      { s with actorType := some at2 } }
  | .character =>
    some { u with characterStreamId := s.originStreamId,
                  streams := aset u.streams s.originStreamId s }
  | .chat =>
    some { u with chatStreamId := s.originStreamId,
                  streams := aset u.streams s.originStreamId s }
  | .ai =>
    some { u with streams := aset u.streams s.originStreamId s }

/-- Model of `User.set_position` (`user.py` lines 154–184), verbatim control
flow: the stored position is first replaced when the new or the stored
position lies strictly inside the open unit box; the (squared) distance
is then taken against the possibly-updated stored position; below 10 m
the matching accumulator grows by that distance (and the position is
not written again), at 10 m or more the position is replaced and
nothing is accumulated.  `none` is the `KeyError` on a missing stream id. -/
def User.setPosition (u : User) (sid : Int) (position : Vector3) :
    Option User :=
  match alookup u.streams sid with
  | none => none
  | some stream =>
    let stream1 :=
      if position.inUnitBox || stream.position.inUnitBox then
        { stream with position := position }
      else stream
    let d2 := position.distSq stream1.position
    if d2 < 100 then
      let stats1 :=
        match stream1.type with
        | .character =>
          { u.stats with metersWalked := u.stats.metersWalked ++ [d2] }
        | .actor =>
          match stream1.actorType with
          | some .car | some .truck | some .train =>
            { u.stats with metersDriven := u.stats.metersDriven ++ [d2] }
          | some .boat =>
            { u.stats with metersSailed := u.stats.metersSailed ++ [d2] }
          | some .airplane =>
            { u.stats with metersFlown := u.stats.metersFlown ++ [d2] }
          | _ => u.stats
        | _ => u.stats
      some { u with stats := stats1, streams := aset u.streams sid stream1 }
    else
      some { u with streams :=
                      aset u.streams sid { stream1 with position := position } }

/-- Model of `User.set_rotation` (`user.py`); `none` is the `KeyError` on a
missing stream id. -/
def User.setRotation (u : User) (sid : Int) (rotation : ℚ) : Option User :=
  match alookup u.streams sid with
  | none => none
  | some stream =>
    some { u with streams := aset u.streams sid { stream with rotation := rotation } }

/-- Model of `User.set_current_stream` (`user.py`): stores the pair and, when the
stream is not the own character stream of the user, resets the character
stream position to the origin via `set_position`. -/
def User.setCurrentStream (u : User) (actorUid sid : Int) : Option User :=
  let u1 := { u with currentStream := { uniqueId := actorUid, streamId := sid } }
  if sid ≠ u1.characterStreamId ∨ u1.info.uniqueId ≠ actorUid then
    u1.setPosition u1.characterStreamId {}
  else
    some u1

/-! ## Connection orchestrator state (`ror_connection.py`) -/

/-- Model of `GlobalStats` (`models/stats.py`): `usernames` is a Python set
(modelled as a duplicate-free insertion-ordered list); `add_user` adds
the username to the set and always increments `user_count`. -/
structure GlobalStats where
  metersDriven : List ℚ := []
  metersSailed : List ℚ := []
  metersWalked : List ℚ := []
  metersFlown : List ℚ := []
  usernames : List (List Byte) := []
  userCount : Nat := 0
deriving DecidableEq, Repr

/-- Model of `GlobalStats.add_user` (`models/stats.py`). -/
def GlobalStats.addUser (g : GlobalStats) (username : List Byte) : GlobalStats :=
  { g with
    usernames := if username ∈ g.usernames then g.usernames
                 else g.usernames ++ [username]
    userCount := g.userCount + 1 }

/-- The registry exceptions of `ror_connection.py` / `user.py`, plus the
`KeyError`/`ValueError` a dict access or an unknown discriminant raises. -/
inductive RegError
  | userNotFound | userAlreadyExists | streamNotFound | keyError | valueError
deriving DecidableEq, Repr

/-- The fields of `RoRConnection` the verified operations read or write:
the bot field `_user_info`, the `_users` registry, `_global_stats`, and
the `_stream_id` counter (initialised to 10: ids under 10 are reserved). -/
structure ConnState where
  userInfo : UserInfo
  users : List (Int × User) := []
  globalStats : GlobalStats := {}
  streamId : Nat := 10
deriving DecidableEq, Repr

/-- Model of `RoRConnection.add_user`: raises `UserAlreadyExistsError` when the
unique id is already a key of `_users` (before any mutation), otherwise
stores a fresh `User` and records the username in the global stats. -/
def ConnState.addUser (st : ConnState) (info : UserInfo) :
    Except RegError ConnState :=
  if (alookup st.users info.uniqueId).isSome then
    .error .userAlreadyExists
  else
    .ok { st with
            users := aset st.users info.uniqueId { info := info }
            globalStats := st.globalStats.addUser info.username }

/-- Model of `RoRConnection.add_stream`: `get_user(stream.origin_source_id)`
(raising `UserNotFoundError` when absent) then `User.add_stream`. -/
def ConnState.addStream (classify : List Byte → Option ActorType)
    (st : ConnState) (s : StreamRegister) : Except RegError ConnState :=
  match alookup st.users s.originSourceId with
  | none => .error .userNotFound
  | some u =>
    match u.addStream classify s with
    | none => .error .valueError
    | some u1 => .ok { st with users := aset st.users s.originSourceId u1 }

/-- Model of `RoRConnection.set_position`: `get_user(uid).set_position(sid, pos)`. -/
def ConnState.setPosition (st : ConnState) (uid sid : Int)
    (position : Vector3) : Except RegError ConnState :=
  match alookup st.users uid with
  | none => .error .userNotFound
  | some u =>
    match u.setPosition sid position with
    | none => .error .keyError
    | some u1 => .ok { st with users := aset st.users uid u1 }

/-- Model of `RoRConnection.set_rotation`: `get_user(uid).set_rotation(sid, θ)`. -/
def ConnState.setRotation (st : ConnState) (uid sid : Int) (rotation : ℚ) :
    Except RegError ConnState :=
  match alookup st.users uid with
  | none => .error .userNotFound
  | some u =>
    match u.setRotation sid rotation with
    | none => .error .keyError
    | some u1 => .ok { st with users := aset st.users uid u1 }

/-- Model of `RoRConnection.set_current_stream`. -/
def ConnState.setCurrentStream (st : ConnState) (uid streamUid sid : Int) :
    Except RegError ConnState :=
  match alookup st.users uid with
  | none => .error .userNotFound
  | some u =>
    match u.setCurrentStream streamUid sid with
    | none => .error .keyError
    | some u1 => .ok { st with users := aset st.users uid u1 }

/-- A packet handed to `RoRConnection._send`, with its payload kept in
decoded form (the source sends `payload.pack()` behind the writer lock). -/
structure SentPacket where
  type : MessageType
  source : Int
  streamId : Int
  payload : StreamRegister
deriving DecidableEq, Repr

/-- The `_parse_packet` handler for `StreamRegisterPacket`
(`ror_connection.py`): `add_stream` the decoded register; when its type
is ACTOR, `reply_to_actor_stream_register(stream, SUCCESS)` mutates the
field `status` of the stored register (the very object `add_stream` stored) and
sends one STREAM_REGISTER_RESULT whose header `stream_id` is the
`origin_stream_id` of the register; non-actor registers send nothing. -/
def ConnState.handleStreamRegister (classify : List Byte → Option ActorType)
    (st : ConnState) (stream : StreamRegister) :
    Except RegError (ConnState × List SentPacket) := do
  let st1 ← st.addStream classify stream
  if stream.type = .actor then
    match alookup st1.users stream.originSourceId with
    | none => .error .userNotFound
    | some u =>
      match alookup u.streams stream.originStreamId with
      | none => .error .streamNotFound
      | some stored =>
        let stored1 := { stored with status := ActorStreamStatus.SUCCESS }
        let st2 := { st1 with
          users := aset st1.users stream.originSourceId
                     { u with streams := aset u.streams stream.originStreamId stored1 } }
        .ok (st2,
          [{ type := .streamRegisterResult
             source := st.userInfo.uniqueId
             streamId := stream.originStreamId
             payload := stored1 }])
  else
    .ok (st1, [])

/-- Model of `RoRConnection.register_stream`: overwrite the origin ids of the register
with the bot uid and the `_stream_id` counter, force `timestamp = -1`
for actor registers, send STREAM_REGISTER, `add_stream` it locally,
increment the counter and return the assigned stream id. -/
def ConnState.registerStream (classify : List Byte → Option ActorType)
    (st : ConnState) (stream : StreamRegister) :
    Except RegError (ConnState × SentPacket × Int) := do
  let s1 := { stream with
    originSourceId := st.userInfo.uniqueId
    originStreamId := (st.streamId : Int)
    timestamp := if stream.type = .actor then -1 else stream.timestamp }
  let sent : SentPacket :=
    { type := .streamRegister, source := s1.originSourceId
      streamId := s1.originStreamId, payload := s1 }
  let st1 ← st.addStream classify s1
  .ok ({ st1 with streamId := st.streamId + 1 }, sent, s1.originStreamId)

/-- A sequence of `register_stream` calls in which the caller catches any
exception a call raises and goes on with the next call; returns the final
state and the stream ids the successful calls returned, in order. -/
def ConnState.registerSeq (classify : List Byte → Option ActorType) :
    ConnState → List StreamRegister → ConnState × List Int
  | st, [] => (st, [])
  | st, s :: rest =>
    match st.registerStream classify s with
    | .error _ => st.registerSeq classify rest
    | .ok (st1, _, sid) =>
      let (st2, sids) := st1.registerSeq classify rest
      (st2, sid :: sids)

/-- A decoded stream-data payload, as `stream_data_factory`
(`models/messages.py`) produces it: one of the character records
(selected by the leading `CharacterCommand`) or the actor record (only
the position influences the registry, the remaining actor fields are
omitted here). -/
inductive StreamDataPayload
  | charPosition (position : Vector3) (rotation : ℚ)
      (animationTime : ℚ) (animationMode : List Byte)
  | charAttach (sourceId : Int) (streamId : Int) (position : Int)
  | charDetach
  | actorData (position : Vector3)
deriving DecidableEq, Repr

/-- The `_parse_packet` handler for `StreamDataPacket`
(`src/ror_server_bot/ror_bot/ror_connection.py`, newer draft, lines
742–802): packets from the bot itself are ignored; unknown users or
streams are silently dropped (`contextlib.suppress`); for character and
actor streams the decoded payload drives `set_rotation` (position
records), `set_position` and `set_current_stream` (position and actor
records) or `set_current_stream` alone (attach records); chat payloads
are not decoded; any other stream type raises `ValueError`. -/
def ConnState.handleStreamData (st : ConnState) (source sid : Int)
    (payload : StreamDataPayload) : Except RegError ConnState :=
  if source = st.userInfo.uniqueId then .ok st
  else
    match alookup st.users source with
    | none => .ok st
    | some u =>
      match alookup u.streams sid with
      | none => .ok st
      | some stream =>
        match stream.type with
        | .character | .actor => do
          let st1 ←
            match payload with
            | .charPosition _ rot _ _ => st.setRotation source sid rot
            | _ => .ok st
          match payload with
          | .charPosition pos _ _ _ | .actorData pos => do
            let st2 ← st1.setPosition source sid pos
            st2.setCurrentStream source source sid
          | .charAttach dataSourceId dataStreamId _ =>
            st1.setCurrentStream source dataSourceId dataStreamId
          | .charDetach => .ok st1
        | .chat => .ok st
        | .ai => .error .valueError

/-! ## Loop steps, reader checks, client-level pieces -/

/-- Value of `RoRConnection.STABLE_FPS`. -/
def STABLE_FPS : Nat := 20

/-- One pass of the canonical `__frame_step_loop` body
(`src/src/ror_server_bot/ror_bot/ror_connection.py` lines 512–526): the
wall-clock delta `dt` elapsed since the previous pass is accumulated;
when the accumulated value reaches `1 / STABLE_FPS` seconds a
`frame_step` event carrying the accumulated delta is emitted and the
delta resets to zero.  Returns (new delta, emitted payload). -/
def frameStepTick (delta dt : ℚ) : ℚ × Option ℚ :=
  let d := delta + dt
  if d ≥ 1 / (STABLE_FPS : ℚ) then (0, some d) else (d, none)

/-- The zero-size guard of `__reader_loop` (`ror_connection.py`): after
unpacking a header, `raise ValueError` for missing data when the
packet type is not STREAM_UNREGISTER and the size field is 0; otherwise
the packet is accepted for the payload read. -/
def readerSizeCheck (t : MessageType) (size : Nat) : Except RegError Unit :=
  if t ≠ MessageType.streamUnregister ∧ size = 0 then .error .valueError
  else .ok ()

/-- Model of `UserInfo.user_color` (`models/messages.py`): the palette entry at
`color_num` when `-1 < color_num < len(colors)`, else white. -/
def UserInfo.userColor (info : UserInfo) : List Byte :=
  if -1 < info.colorNum ∧ info.colorNum < (playerColors.length : Int) then
    playerColors.getD info.colorNum.toNat []
  else colorWhite

/-- Model of `User.username_colored` (`user.py`):
the concatenation of `user_color`, `username` and `Color.WHITE.value`. -/
def User.usernameColored (u : User) : List Byte :=
  u.info.userColor ++ u.info.username ++ colorWhite

/-- Model of `CharacterAttachStreamData` (`models/messages.py`): struct format
"iiii" covering `command`, `source_id`, `stream_id`, `position`. -/
structure CharacterAttachStreamData where
  command : Int
  sourceId : Int
  streamId : Int
  position : Int
deriving DecidableEq, Repr

/-- Model of `struct.pack` for a format of `count` signed 32-bit items: the
argument count is checked against the format first (`struct.error` on a
mismatch, as CPython reports "pack expected N items"), then each value
must fit a signed 32-bit integer. -/
def structPackI32 (count : Nat) (vals : List Int) : Option (List Byte) :=
  if vals.length ≠ count then none
  else if vals.all (fun i => decide (-2147483648 ≤ i ∧ i < 2147483648)) then
    some (vals.flatMap (fun i => le32 (i % 4294967296).toNat))
  else none

/-- Model of `CharacterAttachStreamData.pack` (`models/messages.py` lines
523–533), verbatim: the format is "iiii" (four items) but only
`source_id`, `stream_id` and `position` are supplied — the `command`
field is missing from the argument list. -/
def CharacterAttachStreamData.pack (d : CharacterAttachStreamData) :
    Option (List Byte) :=
  structPackI32 4 [d.sourceId, d.streamId, d.position]

/-! ## Reconnect driver (`ror_client.py`) -/

/-- What one `await self.server.__aenter__()` attempt does: succeeds,
raises a transport-level `ConnectionRefusedError`, or raises the
handshake-level `ConnectionError` (server full / wrong password / wrong
version / banned / unexpected message). -/
inductive ConnectOutcome
  | success | refused | handshakeRefusal
deriving DecidableEq, Repr

/-- Observable steps of `RoRClient.__aenter__`: a numbered connect
attempt, or an `asyncio.sleep(reconnection_interval)` pause. -/
inductive RetryEvent
  | connectAttempt (n : Nat)
  | sleepInterval
deriving DecidableEq, Repr

/-- How `RoRClient.__aenter__` ends. -/
inductive RetryResult
  | connected | raisedHandshakeRefusal | raisedConnectionError
deriving DecidableEq, Repr

/-- The retry loop of `RoRClient.__aenter__` (`ror_client.py` lines
148–178) from attempt index `i`: the attempt outcomes are given by the
oracle `f`.  A successful attempt breaks the loop (the client is then
connected); only `ConnectionRefusedError` is caught, and it is followed
by a sleep unless the attempt was the last one; a handshake refusal
propagates out at once; when the loop finishes without a success the
final `is_connected` check raises `ConnectionError`. -/
def clientEnterFrom (f : Nat → ConnectOutcome) (tries : Nat) (i : Nat) :
    List RetryEvent × RetryResult :=
  if _h : i < tries then
    match f i with
    | .success => ([.connectAttempt i], .connected)
    | .handshakeRefusal => ([.connectAttempt i], .raisedHandshakeRefusal)
    | .refused =>
      let rest := clientEnterFrom f tries (i + 1)
      if i < tries - 1 then
        (.connectAttempt i :: .sleepInterval :: rest.1, rest.2)
      else
        (.connectAttempt i :: rest.1, rest.2)
  else ([], .raisedConnectionError)
termination_by tries - i

/-- Model of `RoRClient.__aenter__`: the full `for attempt in range(tries)` loop. -/
def clientEnter (f : Nat → ConnectOutcome) (tries : Nat) :
    List RetryEvent × RetryResult :=
  clientEnterFrom f tries 0

/-- The number of connect attempts in a trace. -/
def attemptCount (trace : List RetryEvent) : Nat :=
  trace.countP (fun e => match e with
    | .connectAttempt _ => true
    | .sleepInterval => false)

/-- Trace of `k` refused attempts starting at index `i`, each followed by
its `reconnection_interval` sleep. -/
def refusedTrace : Nat → Nat → List RetryEvent
  | _, 0 => []
  | i, k + 1 =>
    RetryEvent.connectAttempt i :: RetryEvent.sleepInterval ::
      refusedTrace (i + 1) k

/-! ## Projections used to state facts about handler results -/

/-- The position stored for stream `sid` of user `uid` after a handler
result. -/
def streamPositionAfter (r : Except RegError ConnState) (uid sid : Int) :
    Option Vector3 :=
  match r with
  | .error _ => none
  | .ok st =>
    (alookup st.users uid).bind fun u =>
      (alookup u.streams sid).map (·.position)

/-- The rotation stored for stream `sid` of user `uid` after a handler
result. -/
def streamRotationAfter (r : Except RegError ConnState) (uid sid : Int) :
    Option ℚ :=
  match r with
  | .error _ => none
  | .ok st =>
    (alookup st.users uid).bind fun u =>
      (alookup u.streams sid).map (·.rotation)

/-- The walked-meters accumulator (list of squared increments) of user
`uid` after a handler result. -/
def walkedAfter (r : Except RegError ConnState) (uid : Int) :
    Option (List ℚ) :=
  match r with
  | .error _ => none
  | .ok st => (alookup st.users uid).map (·.stats.metersWalked)

/-- The current-stream pair of user `uid` after a handler result. -/
def currentStreamAfter (r : Except RegError ConnState) (uid : Int) :
    Option CurrentStream :=
  match r with
  | .error _ => none
  | .ok st => (alookup st.users uid).map (·.currentStream)

/-! ## Sample values used by witnesses -/

/-- A well-formed sample `UserInfo` (color 0, username "bob"). -/
def sampleInfo : UserInfo :=
  { uniqueId := 7, authStatus := 8, slotNum := 1, colorNum := 0
    username := asciiBytes ("bob"), userToken := [], serverPassword := []
    language := asciiBytes ("en-US"), clientName := asciiBytes ("bot")
    clientVersion := [], clientGuid := [], sessionType := asciiBytes ("bot")
    sessionOptions := [] }

/-- A sample `UserInfo` with an out-of-range color number. -/
def sampleInfoNoColor : UserInfo := { sampleInfo with colorNum := -1 }

/-! ## Claim theorems -/

/-- Claim C10: for every `CharacterAttachStreamData` value, `pack` raises
`struct.error`: the format "iiii" expects four items but only
`source_id`, `stream_id` and `position` are supplied (the `command`
field is omitted), so no attach record can ever be encoded — in
particular no decode-encode round trip exists for this record type. -/
theorem characterAttachPack_none (d : CharacterAttachStreamData) :
    d.pack = none := by
  simp [CharacterAttachStreamData.pack, structPackI32]

/-- Claim C6: the reader raises the zero-size protocol error exactly when
the size field of the header is 0 and its type is not STREAM_UNREGISTER, and
a STREAM_UNREGISTER header of size 0 passes the check. -/
theorem readerZeroSize_spec (t : MessageType) (size : Nat) :
    (readerSizeCheck t size = .error .valueError ↔
      size = 0 ∧ t ≠ MessageType.streamUnregister)
    ∧ readerSizeCheck MessageType.streamUnregister 0 = .ok () := by
  refine ⟨?_, rfl⟩
  unfold readerSizeCheck
  by_cases h : t ≠ MessageType.streamUnregister ∧ size = 0
  · rw [if_pos h]
    simp [h.1, h.2]
  · rw [if_neg h]
    constructor
    · intro hcon
      cases hcon
    · intro hcon
      exact absurd ⟨hcon.2, hcon.1⟩ h

/-- Claim C5: one pass of the frame-clock loop accumulates the wall-clock
delta and emits a `frame_step` event carrying the accumulated delta,
resetting it to zero, exactly when the accumulated delta reaches
`1 / STABLE_FPS` seconds, which with `STABLE_FPS = 20` is 50 ms. -/
theorem frameStepTick_spec (delta dt : ℚ) :
    (1 / (STABLE_FPS : ℚ) = 1 / 20)
    ∧ ((frameStepTick delta dt).2.isSome ↔ 1 / (STABLE_FPS : ℚ) ≤ delta + dt)
    ∧ (1 / 20 ≤ delta + dt → frameStepTick delta dt = (0, some (delta + dt)))
    ∧ (delta + dt < 1 / 20 → frameStepTick delta dt = (delta + dt, none)) := by
  have hfps : (1 : ℚ) / (STABLE_FPS : ℚ) = 1 / 20 := by norm_num [STABLE_FPS]
  refine ⟨hfps, ?_, ?_, ?_⟩
  · unfold frameStepTick
    by_cases h : delta + dt ≥ 1 / (STABLE_FPS : ℚ)
    · rw [if_pos h]
      simpa using h
    · rw [if_neg h]
      simpa using h
  · intro h
    unfold frameStepTick
    rw [if_pos (by rw [hfps]; exact h)]
  · intro h
    unfold frameStepTick
    rw [if_neg (by rw [hfps]; exact not_le.mpr h)]

/-- Claim C5 witness: a 30 ms tick on an empty accumulator does not emit;
a further 30 ms tick emits the accumulated 60 ms and resets. -/
theorem frameStepTick_spec_witness :
    frameStepTick 0 (3 / 100) = (3 / 100, none)
    ∧ frameStepTick (3 / 100) (3 / 100) = (0, some (3 / 50)) := by
  constructor
  · have h := (frameStepTick_spec 0 (3 / 100)).2.2.2 (by norm_num)
    simpa using h
  · have h := (frameStepTick_spec (3 / 100) (3 / 100)).2.2.1 (by norm_num)
    rw [h]
    norm_num

/-- Claim C9: `username_colored` is the palette entry at `color_num`
followed by the username and the white code when `color_num ∈ [0, 24]`
(the palette has 25 entries), and white-username-white otherwise. -/
theorem usernameColored_spec (u : User) :
    playerColors.length = 25
    ∧ ((0 ≤ u.info.colorNum ∧ u.info.colorNum ≤ 24) →
        u.usernameColored =
          playerColors.getD u.info.colorNum.toNat [] ++ u.info.username ++ colorWhite)
    ∧ ((u.info.colorNum < 0 ∨ 24 < u.info.colorNum) →
        u.usernameColored = colorWhite ++ u.info.username ++ colorWhite) := by
  refine ⟨by decide, ?_, ?_⟩
  · intro h
    unfold User.usernameColored UserInfo.userColor
    rw [if_pos]
    exact ⟨by omega, by simp only [playerColors]; simp; omega⟩
  · intro h
    unfold User.usernameColored UserInfo.userColor
    rw [if_neg]
    intro hcon
    obtain ⟨h1, h2⟩ := hcon
    simp only [playerColors] at h2
    simp at h2
    omega

/-- Claim C9 witness: color 0 yields the green palette entry around the
username, color −1 falls back to white. -/
theorem usernameColored_spec_witness :
    ({ info := sampleInfo } : User).usernameColored =
      asciiBytes ("#00CC00") ++ asciiBytes ("bob") ++ colorWhite
    ∧ ({ info := sampleInfoNoColor } : User).usernameColored =
      colorWhite ++ asciiBytes ("bob") ++ colorWhite := by
  constructor
  · have h := (usernameColored_spec ({ info := sampleInfo } : User)).2.1
      (by constructor <;> decide)
    rw [h]
    decide
  · have h := (usernameColored_spec ({ info := sampleInfoNoColor } : User)).2.2
      (by left; decide)
    rw [h]
    decide

/-! ## Association-list lemmas -/

theorem alookup_aset_self {α : Type} (l : List (Int × α)) (k : Int) (v : α) :
    alookup (aset l k v) k = some v := by
  induction l with
  | nil => simp [aset, alookup]
  | cons hd tl ih =>
    obtain ⟨k2, v2⟩ := hd
    by_cases h : k2 = k
    · simp [aset, alookup, h]
    · simp [aset, alookup, h, ih]

theorem alookup_aset_isSome {α : Type} (l : List (Int × α)) (k k2 : Int)
    (v : α) (h : (alookup l k2).isSome) :
    (alookup (aset l k v) k2).isSome := by
  induction l with
  | nil => simp [alookup] at h
  | cons hd tl ih =>
    obtain ⟨ka, va⟩ := hd
    by_cases hk : ka = k
    · subst hk
      by_cases hk2 : ka = k2
      · simp [aset, alookup, hk2]
      · simp [alookup, hk2] at h
        simp [aset, alookup, hk2]
        exact h
    · by_cases hk2 : ka = k2
      · subst hk2
        simp [aset, alookup, hk]
      · simp [alookup, hk2] at h
        simp [aset, alookup, hk, hk2]
        exact ih h

/-- Claim C7: `add_user` fails with `UserAlreadyExists` when the unique
id is already registered (the check precedes every mutation, so registry
and global statistics are untouched); on a fresh id it stores the user
and records the username in the global statistics. -/
theorem addUser_spec (st : ConnState) (info : UserInfo) :
    ((alookup st.users info.uniqueId).isSome →
      st.addUser info = .error .userAlreadyExists)
    ∧ (alookup st.users info.uniqueId = none →
      st.addUser info = .ok { st with
          users := aset st.users info.uniqueId { info := info }
          globalStats := st.globalStats.addUser info.username }
      ∧ info.username ∈ (st.globalStats.addUser info.username).usernames) := by
  constructor
  · intro h
    unfold ConnState.addUser
    rw [if_pos h]
  · intro h
    refine ⟨?_, ?_⟩
    · unfold ConnState.addUser
      rw [if_neg (by simp [h])]
    · unfold GlobalStats.addUser
      by_cases hmem : info.username ∈ st.globalStats.usernames
      · simp [hmem]
      · simp [hmem]

/-- A connection state whose registry holds the sample user (uid 7). -/
def sampleState : ConnState :=
  { userInfo := sampleInfo, users := [((7 : Int), { info := sampleInfo })] }

/-- The state reached by adding the sample user to an empty registry. -/
def sampleState' : ConnState :=
  { userInfo := sampleInfo
    users := [((7 : Int), { info := sampleInfo })]
    globalStats := { usernames := [asciiBytes ("bob")], userCount := 1 } }

/-- Claim C7 witness: adding uid 7 twice fails the second time; adding it
to an empty registry stores it and records the username. -/
theorem addUser_spec_witness :
    sampleState.addUser sampleInfo = .error .userAlreadyExists
    ∧ ({ userInfo := sampleInfo } : ConnState).addUser sampleInfo =
        .ok sampleState'
    ∧ sampleInfo.username ∈ sampleState'.globalStats.usernames := by
  refine ⟨(addUser_spec sampleState sampleInfo).1 (by decide), ?_, ?_⟩
  · have h := ((addUser_spec { userInfo := sampleInfo } sampleInfo).2 (by decide)).1
    rw [h]
    rfl
  · have h := ((addUser_spec { userInfo := sampleInfo } sampleInfo).2 (by decide)).2
    exact h

/-- Claim C3: when the orchestrator processes an inbound STREAM_REGISTER
whose decoded stream has type ACTOR (and processing completes, i.e. the
registering peer is known), it sends exactly one STREAM_REGISTER_RESULT,
whose payload status is SUCCESS and whose header `stream_id` is the
`origin_stream_id` of the peer; no STREAM_REGISTER_RESULT is sent for CHAT or
CHARACTER (or AI) registers. -/
theorem streamRegisterReply_spec (classify : List Byte → Option ActorType)
    (st : ConnState) (stream : StreamRegister)
    (res : ConnState × List SentPacket)
    (hok : st.handleStreamRegister classify stream = .ok res) :
    (stream.type = StreamType.actor →
      ∃ pkt, res.2 = [pkt]
        ∧ pkt.type = MessageType.streamRegisterResult
        ∧ pkt.streamId = stream.originStreamId
        ∧ pkt.payload.status = ActorStreamStatus.SUCCESS
        ∧ pkt.source = st.userInfo.uniqueId)
    ∧ (stream.type ≠ StreamType.actor → res.2 = []) := by
  unfold ConnState.handleStreamRegister at hok
  cases haddr : st.addStream classify stream with
  | error e =>
    rw [haddr] at hok
    simp only [bind, Except.bind] at hok
    cases hok
  | ok st1 =>
    rw [haddr] at hok
    simp only [bind, Except.bind] at hok
    split at hok
    · rename_i hty
      split at hok
      · cases hok
      · split at hok
        · cases hok
        · rename_i stored hs
          simp only [Except.ok.injEq] at hok
          refine ⟨fun _ => ?_, fun hne => absurd hty hne⟩
          refine ⟨{ type := MessageType.streamRegisterResult
                    source := st.userInfo.uniqueId
                    streamId := stream.originStreamId
                    payload := { stored with status := ActorStreamStatus.SUCCESS } },
                  ?_, rfl, rfl, rfl, rfl⟩
          rw [← hok]
    · rename_i hty
      simp only [Except.ok.injEq] at hok
      exact ⟨fun hcon => absurd hcon hty, fun _ => by rw [← hok]⟩

/-- The peer actor stream register of scenario S3: user 7 registers a
`.truck` actor stream with sid 12. -/
def actorReg12 : StreamRegister :=
  { type := StreamType.actor, originSourceId := 7, originStreamId := 12
    name := asciiBytes ("fancy.truck") }

/-- A classification table mapping every filename to a truck. -/
def clsTruck : List Byte → Option ActorType := fun _ => some ActorType.truck

/-- The single STREAM_REGISTER_RESULT reply produced for `actorReg12`. -/
def pktC3 : SentPacket :=
  { type := MessageType.streamRegisterResult, source := 7, streamId := 12
    payload := { actorReg12 with status := 1, actorType := some ActorType.truck } }

/-- The state and reply produced by processing `actorReg12` in
`sampleState`. -/
def resC3 : ConnState × List SentPacket :=
  ({ userInfo := sampleInfo
     users := [((7 : Int),
       { info := sampleInfo
         streams := [((12 : Int),
           { actorReg12 with status := 1, actorType := some ActorType.truck })] })] },
   [pktC3])

/-- Claim C3 witness: processing the sample actor register emits exactly
one STREAM_REGISTER_RESULT with status SUCCESS and stream id 12. -/
theorem streamRegisterReply_spec_witness :
    sampleState.handleStreamRegister clsTruck actorReg12 = .ok resC3
    ∧ resC3.2.length = 1
    ∧ pktC3.type = MessageType.streamRegisterResult
    ∧ pktC3.streamId = 12
    ∧ pktC3.payload.status = ActorStreamStatus.SUCCESS := by
  have h := streamRegisterReply_spec clsTruck sampleState actorReg12 resC3 rfl
  obtain ⟨pkt, hpkt, _, _, _, _⟩ := h.1 rfl
  exact ⟨rfl, by rw [hpkt]; rfl, rfl, rfl, rfl⟩

/-- Inverting a successful `add_stream`: only the `_users` registry
changes. -/
theorem addStream_ok_inv (classify : List Byte → Option ActorType)
    (st : ConnState) (s : StreamRegister) (st1 : ConnState)
    (h : st.addStream classify s = .ok st1) :
    st1.userInfo = st.userInfo ∧ st1.streamId = st.streamId := by
  unfold ConnState.addStream at h
  split at h
  · cases h
  · split at h
    · cases h
    · simp only [Except.ok.injEq] at h
      subst h
      exact ⟨rfl, rfl⟩

/-- Inverting a successful `register_stream` call: the returned id is the
counter at call time, the counter advances by exactly one, and the identity of the bot
is untouched. -/
theorem registerStream_ok_inv (classify : List Byte → Option ActorType)
    (st : ConnState) (s : StreamRegister) (st1 : ConnState)
    (sent : SentPacket) (sid : Int)
    (h : st.registerStream classify s = .ok (st1, sent, sid)) :
    sid = (st.streamId : Int) ∧ st1.streamId = st.streamId + 1
      ∧ st1.userInfo = st.userInfo := by
  unfold ConnState.registerStream at h
  simp only [bind, Except.bind] at h
  split at h
  · cases h
  · rename_i sta hadd
    obtain ⟨hinfo, _⟩ := addStream_ok_inv classify st _ sta hadd
    simp only [Except.ok.injEq, Prod.mk.injEq] at h
    obtain ⟨h1, _, h3⟩ := h
    subst h1
    exact ⟨h3.symm, rfl, hinfo⟩

/-- The ids returned by any sequence of `register_stream` calls (failed
calls raising through and being caught by the caller) are the
consecutive counter values from the starting counter. -/
theorem registerSeq_ids (classify : List Byte → Option ActorType) :
    ∀ (streams : List StreamRegister) (st : ConnState),
      ∃ k, (st.registerSeq classify streams).2 =
        (List.range k).map (fun i => ((st.streamId + i : Nat) : Int)) := by
  intro streams
  induction streams with
  | nil =>
    intro st
    exact ⟨0, by simp [ConnState.registerSeq]⟩
  | cons s rest ih =>
    intro st
    unfold ConnState.registerSeq
    cases h : st.registerStream classify s with
    | error e => exact ih st
    | ok trip =>
      obtain ⟨st1, sent, sid⟩ := trip
      obtain ⟨hsid, hctr, _⟩ := registerStream_ok_inv classify st s st1 sent sid h
      obtain ⟨k, hk⟩ := ih st1
      refine ⟨k + 1, ?_⟩
      simp only [hk, hsid, hctr, List.range_succ_eq_map, List.map_cons,
        List.map_map]
      congr 1
      apply List.map_congr_left
      intro a _
      simp only [Function.comp_apply]
      push_cast
      ring

/-- Claim C4: on a freshly constructed connection (`_stream_id = 10`),
the stream ids returned by any sequence of `register_stream` calls are
`10, 11, 12, …` — a strictly increasing sequence whose first element is
10 (each call hands out the counter and then increments it). -/
theorem registerStreamIds_spec (classify : List Byte → Option ActorType)
    (st : ConnState) (streams : List StreamRegister)
    (h10 : st.streamId = 10) :
    ∃ k, (st.registerSeq classify streams).2 =
        (List.range k).map (fun i => ((10 + i : Nat) : Int))
      ∧ List.Chain' (· < ·) (st.registerSeq classify streams).2
      ∧ ((st.registerSeq classify streams).2 ≠ [] →
          (st.registerSeq classify streams).2.head? = some ((10 : Nat) : Int)) := by
  obtain ⟨k, hk⟩ := registerSeq_ids classify streams st
  rw [h10] at hk
  refine ⟨k, hk, ?_, ?_⟩
  · rw [hk, List.chain'_map]
    cases k with
    | zero => simp
    | succ n =>
      rw [List.chain'_range_succ]
      intro m _
      push_cast
      omega
  · intro hne
    cases k with
    | zero =>
      rw [hk] at hne
      simp at hne
    | succ n =>
      rw [hk, List.range_succ_eq_map]
      simp

/-- The bot-side chat stream register of `__register_streams`. -/
def chatReg : StreamRegister :=
  { type := StreamType.chat, name := asciiBytes ("chat")
    regData := asciiBytes ("0") }

/-- The bot-side character stream register of `__register_streams`. -/
def charReg : StreamRegister :=
  { type := StreamType.character, name := asciiBytes ("default") }

/-- Claim C4 witness: registering the chat and character streams on the
fresh sample state returns ids 10 and 11. -/
theorem registerStreamIds_spec_witness :
    (sampleState.registerSeq clsTruck [chatReg, charReg]).2 = [(10 : Int), 11]
    ∧ List.Chain' (· < ·) (sampleState.registerSeq clsTruck [chatReg, charReg]).2
    ∧ (sampleState.registerSeq clsTruck [chatReg, charReg]).2.head? =
        some ((10 : Nat) : Int) := by
  obtain ⟨k, hk, hchain, hhead⟩ :=
    registerStreamIds_spec clsTruck sampleState [chatReg, charReg] rfl
  exact ⟨by rfl, hchain, hhead (by decide)⟩

/-! ## Reconnect-driver lemmas (claim C8) -/

theorem clientEnterFrom_handshake (f : Nat → ConnectOutcome) (tries k : Nat)
    (hk : k < tries) (hf : f k = ConnectOutcome.handshakeRefusal) :
    clientEnterFrom f tries k =
      ([RetryEvent.connectAttempt k], RetryResult.raisedHandshakeRefusal) := by
  unfold clientEnterFrom
  rw [dif_pos hk, hf]

theorem clientEnterFrom_success (f : Nat → ConnectOutcome) (tries k : Nat)
    (hk : k < tries) (hf : f k = ConnectOutcome.success) :
    clientEnterFrom f tries k =
      ([RetryEvent.connectAttempt k], RetryResult.connected) := by
  unfold clientEnterFrom
  rw [dif_pos hk, hf]

theorem clientEnterFrom_allRefused (f : Nat → ConnectOutcome) (tries : Nat) :
    ∀ (n i : Nat), i + n + 1 = tries →
      (∀ j, i ≤ j → j < tries → f j = ConnectOutcome.refused) →
      clientEnterFrom f tries i =
        (refusedTrace i n ++ [RetryEvent.connectAttempt (tries - 1)],
         RetryResult.raisedConnectionError) := by
  intro n
  induction n with
  | zero =>
    intro i hi href
    have hilt : i < tries := by omega
    unfold clientEnterFrom
    rw [dif_pos hilt, href i le_rfl hilt]
    have hno : ¬ i < tries - 1 := by omega
    rw [if_neg hno]
    unfold clientEnterFrom
    rw [dif_neg (by omega)]
    have hlast : tries - 1 = i := by omega
    simp [refusedTrace, hlast]
  | succ m ihm =>
    intro i hi href
    have hilt : i < tries := by omega
    unfold clientEnterFrom
    rw [dif_pos hilt, href i le_rfl hilt]
    have hyes : i < tries - 1 := by omega
    rw [if_pos hyes]
    rw [ihm (i + 1) (by omega) (fun j hj hjt => href j (by omega) hjt)]
    simp [refusedTrace]

theorem clientEnterFrom_prefixRefused (f : Nat → ConnectOutcome)
    (tries : Nat) :
    ∀ (n i : Nat), i + n < tries →
      (∀ j, i ≤ j → j < i + n → f j = ConnectOutcome.refused) →
      clientEnterFrom f tries i =
        (refusedTrace i n ++ (clientEnterFrom f tries (i + n)).1,
         (clientEnterFrom f tries (i + n)).2) := by
  intro n
  induction n with
  | zero =>
    intro i h1 h2
    simp [refusedTrace]
  | succ m ihm =>
    intro i h1 h2
    have hilt : i < tries := by omega
    conv_lhs => rw [clientEnterFrom]
    rw [dif_pos hilt, h2 i le_rfl (by omega)]
    have hyes : i < tries - 1 := by omega
    rw [if_pos hyes]
    rw [ihm (i + 1) (by omega) (fun j hj hjt => h2 j (by omega) (by omega))]
    have harith : i + 1 + m = i + (m + 1) := by omega
    rw [harith]
    simp [refusedTrace]

theorem attemptCount_cons (e : RetryEvent) (l : List RetryEvent) :
    attemptCount (e :: l) =
      attemptCount l + (match e with
        | RetryEvent.connectAttempt _ => 1
        | RetryEvent.sleepInterval => 0) := by
  cases e <;> simp [attemptCount, List.countP_cons]

theorem attemptCount_le (f : Nat → ConnectOutcome) (tries : Nat) :
    ∀ (n i : Nat), tries - i ≤ n →
      attemptCount (clientEnterFrom f tries i).1 ≤ tries - i := by
  intro n
  induction n with
  | zero =>
    intro i hn
    unfold clientEnterFrom
    rw [dif_neg (by omega)]
    simp [attemptCount]
  | succ m ihm =>
    intro i hn
    by_cases hilt : i < tries
    · unfold clientEnterFrom
      rw [dif_pos hilt]
      cases hf : f i with
      | success => simp [attemptCount, List.countP_cons]; omega
      | handshakeRefusal => simp [attemptCount, List.countP_cons]; omega
      | refused =>
        have hrest := ihm (i + 1) (by omega)
        by_cases hyes : i < tries - 1
        · rw [if_pos hyes]
          simp only [attemptCount_cons]
          omega
        · rw [if_neg hyes]
          simp only [attemptCount_cons]
          omega
    · unfold clientEnterFrom
      rw [dif_neg hilt]
      simp [attemptCount]

/-- Claim C8: the reconnect driver attempts the connect step at most
`reconnection_tries` times with one `reconnection_interval` sleep between
consecutive attempts; only a transport-level connection-refused outcome
leads to another attempt, a handshake refusal propagates immediately
after its attempt with no retry, and when every attempt is refused the
driver raises a connection error after the last attempt. -/
theorem reconnectDriver_spec (f : Nat → ConnectOutcome) (tries : Nat) :
    attemptCount (clientEnter f tries).1 ≤ tries
    ∧ (1 ≤ tries → (∀ j, j < tries → f j = ConnectOutcome.refused) →
        clientEnter f tries =
          (refusedTrace 0 (tries - 1) ++ [RetryEvent.connectAttempt (tries - 1)],
           RetryResult.raisedConnectionError))
    ∧ (∀ k, k < tries → (∀ j, j < k → f j = ConnectOutcome.refused) →
        f k = ConnectOutcome.handshakeRefusal →
        clientEnter f tries =
          (refusedTrace 0 k ++ [RetryEvent.connectAttempt k],
           RetryResult.raisedHandshakeRefusal))
    ∧ (∀ k, k < tries → (∀ j, j < k → f j = ConnectOutcome.refused) →
        f k = ConnectOutcome.success →
        clientEnter f tries =
          (refusedTrace 0 k ++ [RetryEvent.connectAttempt k],
           RetryResult.connected)) := by
  refine ⟨?_, ?_, ?_, ?_⟩
  · simpa using attemptCount_le f tries tries 0 (by omega)
  · intro h1 href
    unfold clientEnter
    exact clientEnterFrom_allRefused f tries (tries - 1) 0 (by omega)
      (fun j _ hjt => href j hjt)
  · intro k hk href hf
    unfold clientEnter
    rw [clientEnterFrom_prefixRefused f tries k 0 (by omega)
      (fun j _ hj => href j (by omega))]
    rw [show 0 + k = k from by omega]
    rw [clientEnterFrom_handshake f tries k hk hf]
  · intro k hk href hf
    unfold clientEnter
    rw [clientEnterFrom_prefixRefused f tries k 0 (by omega)
      (fun j _ hj => href j (by omega))]
    rw [show 0 + k = k from by omega]
    rw [clientEnterFrom_success f tries k hk hf]

/-- The attempt-outcome oracle of the C8 witness: the first attempt is
refused and the second hits a handshake refusal. -/
def fC8 : Nat → ConnectOutcome :=
  fun n => if n = 0 then ConnectOutcome.refused
           else ConnectOutcome.handshakeRefusal

/-- Claim C8 witness: with 3 configured tries, a refused first attempt is
retried after one sleep, and the handshake refusal on the second attempt
ends the driver at once (two attempts, not three). -/
theorem reconnectDriver_spec_witness :
    clientEnter fC8 3 =
      ([RetryEvent.connectAttempt 0, RetryEvent.sleepInterval,
        RetryEvent.connectAttempt 1], RetryResult.raisedHandshakeRefusal)
    ∧ attemptCount (clientEnter fC8 3).1 ≤ 3 := by
  have h := reconnectDriver_spec fC8 3
  have h3 := h.2.2.1 1 (by omega)
    (fun j hj => by
      have hj0 : j = 0 := by omega
      subst hj0
      rfl)
    rfl
  refine ⟨?_, h.1⟩
  rw [h3]
  rfl

/-! ## Codec lemmas (claim C2) -/

theorem le32_length (n : Nat) : (le32 n).length = 4 := rfl

theorem readLE32_le32 (n : Nat) (h : n < 4294967296) :
    readLE32 (le32 n) = n := by
  simp only [le32, readLE32]
  omega

theorem readU32_u32 (m : Int) (h0 : 0 ≤ m) (h1 : m < 4294967296) :
    readU32 (le32 m.toNat) = m := by
  unfold readU32
  rw [readLE32_le32 _ (by omega)]
  omega

theorem readI32_i32 (i : Int) (h0 : -2147483648 ≤ i) (h1 : i < 2147483648) :
    readI32 (le32 (i % 4294967296).toNat) = i := by
  unfold readI32
  rw [readLE32_le32 _ (by omega)]
  split <;> omega

theorem padTo_length (w : Nat) (s : List Byte) : (padTo w s).length = w := by
  simp [padTo]
  omega

theorem padTo_eq_append (w : Nat) (s : List Byte) (h : s.length ≤ w) :
    padTo w s = s ++ List.replicate (w - s.length) 0 := by
  unfold padTo
  rw [List.take_of_length_le h]

theorem rstripNul_append_zeros (s : List Byte) (k : Nat) :
    rstripNul (s ++ List.replicate k 0) = rstripNul s := by
  unfold rstripNul
  rw [List.reverse_append, List.reverse_replicate,
    List.dropWhile_append_of_pos (by simp)]

theorem stripNul_padTo (w : Nat) (s : List Byte) (hlen : s.length ≤ w)
    (hl : lstripNul s = s) (hr : rstripNul s = s) :
    stripNul (padTo w s) = s := by
  rw [padTo_eq_append w s hlen]
  unfold stripNul
  cases s with
  | nil =>
    simp only [List.nil_append]
    rw [show lstripNul (List.replicate (w - List.length []) 0) = [] from by
      simp [lstripNul, List.dropWhile_replicate]]
    rfl
  | cons a t =>
    have ha : (a == 0) = false := by
      cases hab : (a == 0) with
      | false => rfl
      | true =>
        unfold lstripNul at hl
        rw [List.dropWhile_cons, hab] at hl
        simp only [if_true] at hl
        have hsub := (List.dropWhile_sublist (l := t)
          (fun b => b == 0)).length_le
        have := congrArg List.length hl
        simp at this
        omega
    rw [show lstripNul ((a :: t) ++ List.replicate (w - (a :: t).length) 0)
          = (a :: t) ++ List.replicate (w - (a :: t).length) 0 from by
      unfold lstripNul
      rw [List.cons_append, List.dropWhile_cons, ha]
      simp]
    rw [rstripNul_append_zeros]
    exact hr

theorem drop_step (l x rest : List Byte) (off off2 n : Nat)
    (hd : l.drop off = x ++ rest) (hx : x.length = n)
    (hoff : off2 = off + n) : l.drop off2 = rest := by
  subst hoff
  rw [← List.drop_drop, hd, List.drop_left' hx]

/-- Decoding a 359-byte buffer assembled from its thirteen fields
recovers each field slice. -/
theorem decodeUserInfo_concat (A B C D S1 S2 S3 S4 S5 S6 S7 S8 S9 : List Byte)
    (hA : A.length = 4) (hB : B.length = 4) (hC : C.length = 4)
    (hD : D.length = 4) (h1 : S1.length = 40) (h2 : S2.length = 40)
    (h3 : S3.length = 40) (h4 : S4.length = 10) (h5 : S5.length = 10)
    (h6 : S6.length = 25) (h7 : S7.length = 40) (h8 : S8.length = 10)
    (h9 : S9.length = 128) :
    decodeUserInfo (A ++ B ++ C ++ D ++ S1 ++ S2 ++ S3 ++ S4 ++ S5 ++ S6
        ++ S7 ++ S8 ++ S9) =
      some { uniqueId := readU32 A, authStatus := readI32 B
             slotNum := readI32 C, colorNum := readI32 D
             username := stripNul S1, userToken := stripNul S2
             serverPassword := stripNul S3, language := stripNul S4
             clientName := stripNul S5, clientVersion := stripNul S6
             clientGuid := stripNul S7, sessionType := stripNul S8
             sessionOptions := stripNul S9 } := by
  have d0 : (A ++ B ++ C ++ D ++ S1 ++ S2 ++ S3 ++ S4 ++ S5 ++ S6 ++ S7
      ++ S8 ++ S9).drop 0 = A ++ (B ++ (C ++ (D ++ (S1 ++ (S2 ++ (S3 ++
      (S4 ++ (S5 ++ (S6 ++ (S7 ++ (S8 ++ S9))))))))))) := by
    simp
  have d4 := drop_step _ _ _ 0 4 4 d0 hA rfl
  have d8 := drop_step _ _ _ 4 8 4 d4 hB rfl
  have d12 := drop_step _ _ _ 8 12 4 d8 hC rfl
  have d16 := drop_step _ _ _ 12 16 4 d12 hD rfl
  have d56 := drop_step _ _ _ 16 56 40 d16 h1 rfl
  have d96 := drop_step _ _ _ 56 96 40 d56 h2 rfl
  have d136 := drop_step _ _ _ 96 136 40 d96 h3 rfl
  have d146 := drop_step _ _ _ 136 146 10 d136 h4 rfl
  have d156 := drop_step _ _ _ 146 156 10 d146 h5 rfl
  have d181 := drop_step _ _ _ 156 181 25 d156 h6 rfl
  have d221 := drop_step _ _ _ 181 221 40 d181 h7 rfl
  have d231 := drop_step _ _ _ 221 231 10 d221 h8 rfl
  unfold decodeUserInfo
  rw [if_pos (by simp [hA, hB, hC, hD, h1, h2, h3, h4, h5, h6, h7, h8, h9])]
  unfold fieldAt
  rw [d0, d4, d8, d12, d16, d56, d96, d136, d146, d156, d181, d221, d231]
  rw [List.take_left' hA, List.take_left' hB, List.take_left' hC,
    List.take_left' hD, List.take_left' h1, List.take_left' h2,
    List.take_left' h3, List.take_left' h4, List.take_left' h5,
    List.take_left' h6, List.take_left' h7, List.take_left' h8,
    List.take_of_length_le (by omega)]

/-- Claim C2: for every `UserInfo` value whose integer fields admit the
359-byte encoding and whose string fields fit their declared widths (a
pydantic-constructed value carries no leading or trailing NUL bytes),
decoding the encoding yields the value back unchanged. -/
theorem userInfoRoundtrip (u : UserInfo) (h : u.wellFormed) :
    (encodeUserInfo u).bind decodeUserInfo = some u := by
  obtain ⟨⟨hu0, hu1⟩, ⟨ha0, ha1⟩, ⟨hs0, hs1⟩, ⟨hc0, hc1⟩,
    hn, ht, hp, hl, hcn, hcv, hg, hst, hso⟩ := h
  unfold encodeUserInfo u32encode i32encode
  rw [if_pos ⟨hu0, hu1⟩, if_pos ⟨ha0, ha1⟩, if_pos ⟨hs0, hs1⟩,
    if_pos ⟨hc0, hc1⟩]
  simp only [bind, Option.bind]
  rw [decodeUserInfo_concat _ _ _ _ _ _ _ _ _ _ _ _ _
    (le32_length _) (le32_length _) (le32_length _) (le32_length _)
    (padTo_length _ _) (padTo_length _ _) (padTo_length _ _)
    (padTo_length _ _) (padTo_length _ _) (padTo_length _ _)
    (padTo_length _ _) (padTo_length _ _) (padTo_length _ _)]
  rw [readU32_u32 _ hu0 hu1, readI32_i32 _ ha0 ha1, readI32_i32 _ hs0 hs1,
    readI32_i32 _ hc0 hc1,
    stripNul_padTo _ _ hn.1 hn.2.1 hn.2.2,
    stripNul_padTo _ _ ht.1 ht.2.1 ht.2.2,
    stripNul_padTo _ _ hp.1 hp.2.1 hp.2.2,
    stripNul_padTo _ _ hl.1 hl.2.1 hl.2.2,
    stripNul_padTo _ _ hcn.1 hcn.2.1 hcn.2.2,
    stripNul_padTo _ _ hcv.1 hcv.2.1 hcv.2.2,
    stripNul_padTo _ _ hg.1 hg.2.1 hg.2.2,
    stripNul_padTo _ _ hst.1 hst.2.1 hst.2.2,
    stripNul_padTo _ _ hso.1 hso.2.1 hso.2.2]

/-- Claim C2 witness: the sample user info survives the encode-decode
round trip. -/
theorem userInfoRoundtrip_witness :
    sampleInfo.wellFormed
    ∧ (encodeUserInfo sampleInfo).bind decodeUserInfo = some sampleInfo :=
  ⟨by decide, userInfoRoundtrip sampleInfo (by decide)⟩

/-! ## Character-position stream data (claim C1) -/

theorem Vector3.distSq_self (v : Vector3) : v.distSq v = 0 := by
  unfold Vector3.distSq
  ring

/-- Evaluation of the STREAM_DATA handler on a CHARACTER stream carrying
a position record: rotation and current-stream always update; position
and the walked accumulator follow the box/threshold rule of `User.set_position`. -/
theorem handleCharPos_run (st : ConnState) (source sid : Int)
    (u : User) (stream : StreamRegister) (q : Vector3) (r t : ℚ)
    (m : List Byte)
    (hself : ¬ source = st.userInfo.uniqueId)
    (hu : alookup st.users source = some u)
    (hs : alookup u.streams sid = some stream)
    (hty : stream.type = StreamType.character)
    (hchar : u.characterStreamId = sid)
    (huid : u.info.uniqueId = source) :
    currentStreamAfter
        (st.handleStreamData source sid (StreamDataPayload.charPosition q r t m))
        source = some { uniqueId := source, streamId := sid }
    ∧ streamRotationAfter
        (st.handleStreamData source sid (StreamDataPayload.charPosition q r t m))
        source sid = some r
    ∧ ((q.inUnitBox || stream.position.inUnitBox) = true →
        streamPositionAfter
            (st.handleStreamData source sid (StreamDataPayload.charPosition q r t m))
            source sid = some q
        ∧ walkedAfter
            (st.handleStreamData source sid (StreamDataPayload.charPosition q r t m))
            source = some (u.stats.metersWalked ++ [0]))
    ∧ ((q.inUnitBox || stream.position.inUnitBox) = false →
        q.distSq stream.position < 100 →
        streamPositionAfter
            (st.handleStreamData source sid (StreamDataPayload.charPosition q r t m))
            source sid = some stream.position
        ∧ walkedAfter
            (st.handleStreamData source sid (StreamDataPayload.charPosition q r t m))
            source = some (u.stats.metersWalked ++ [q.distSq stream.position]))
    ∧ ((q.inUnitBox || stream.position.inUnitBox) = false →
        ¬ q.distSq stream.position < 100 →
        streamPositionAfter
            (st.handleStreamData source sid (StreamDataPayload.charPosition q r t m))
            source sid = some q
        ∧ walkedAfter
            (st.handleStreamData source sid (StreamDataPayload.charPosition q r t m))
            source = some u.stats.metersWalked) := by
  by_cases hb : (q.inUnitBox || stream.position.inUnitBox) = true
  · have hq0 : q.distSq q = 0 := Vector3.distSq_self q
    refine ⟨?_, ?_, fun _ => ⟨?_, ?_⟩,
      fun hb2 _ => absurd hb (by simp [hb2]),
      fun hb2 _ => absurd hb (by simp [hb2])⟩ <;>
      simp [ConnState.handleStreamData, ConnState.setRotation,
        User.setRotation, ConnState.setPosition, User.setPosition,
        ConnState.setCurrentStream, User.setCurrentStream,
        currentStreamAfter, streamRotationAfter, streamPositionAfter,
        walkedAfter, hu, hs, hty, hchar, huid, hself, hb,
        alookup_aset_self, bind, Except.bind, hq0]
  · have hb' : (q.inUnitBox || stream.position.inUnitBox) = false := by
      simpa using hb
    by_cases hd : q.distSq stream.position < 100
    · refine ⟨?_, ?_, fun hb2 => absurd hb2 hb,
        fun _ _ => ⟨?_, ?_⟩,
        fun _ hd2 => absurd hd hd2⟩ <;>
        simp [ConnState.handleStreamData, ConnState.setRotation,
          User.setRotation, ConnState.setPosition, User.setPosition,
          ConnState.setCurrentStream, User.setCurrentStream,
          currentStreamAfter, streamRotationAfter, streamPositionAfter,
          walkedAfter, hu, hs, hty, hchar, huid, hself, hb', hd,
          alookup_aset_self, bind, Except.bind]
    · refine ⟨?_, ?_, fun hb2 => absurd hb2 hb,
        fun _ hd2 => absurd hd2 hd,
        fun _ _ => ⟨?_, ?_⟩⟩ <;>
        simp [ConnState.handleStreamData, ConnState.setRotation,
          User.setRotation, ConnState.setPosition, User.setPosition,
          ConnState.setCurrentStream, User.setCurrentStream,
          currentStreamAfter, streamRotationAfter, streamPositionAfter,
          walkedAfter, hu, hs, hty, hchar, huid, hself, hb', hd,
          alookup_aset_self, bind, Except.bind]

/-- Claim C1 (amended to the code): processing a STREAM_DATA packet whose
payload is a `CharacterPositionStreamData` with position `q`, on the CHARACTER stream of a peer `sid` with prior position `p`, always stores the decoded
rotation and sets `current_stream = (source, sid)`, but follows
the box/threshold rule of `User.set_position` for position and distance:
when `q` or `p` lies strictly inside the open cube `(-1,1)^3` the
position becomes `q` and a zero increment is accumulated; otherwise when
`|q-p| < 10 m` the position stays `p` and the walked accumulator grows
by `|q-p|` (in particular also below the 1 m dead-band the spec
postulates); otherwise (`|q-p| ≥ 10 m`) the position becomes `q` and
nothing is accumulated. -/
theorem charPositionStreamData_spec (st : ConnState) (source sid : Int)
    (u : User) (stream : StreamRegister) (q : Vector3) (r t : ℚ)
    (m : List Byte)
    (hself : ¬ source = st.userInfo.uniqueId)
    (hu : alookup st.users source = some u)
    (hs : alookup u.streams sid = some stream)
    (hty : stream.type = StreamType.character)
    (hchar : u.characterStreamId = sid)
    (huid : u.info.uniqueId = source) :
    currentStreamAfter
        (st.handleStreamData source sid (StreamDataPayload.charPosition q r t m))
        source = some { uniqueId := source, streamId := sid }
    ∧ streamRotationAfter
        (st.handleStreamData source sid (StreamDataPayload.charPosition q r t m))
        source sid = some r
    ∧ ((q.inUnitBox || stream.position.inUnitBox) = true →
        streamPositionAfter
            (st.handleStreamData source sid (StreamDataPayload.charPosition q r t m))
            source sid = some q
        ∧ walkedAfter
            (st.handleStreamData source sid (StreamDataPayload.charPosition q r t m))
            source = some (u.stats.metersWalked ++ [0]))
    ∧ ((q.inUnitBox || stream.position.inUnitBox) = false →
        q.distSq stream.position < 100 →
        streamPositionAfter
            (st.handleStreamData source sid (StreamDataPayload.charPosition q r t m))
            source sid = some stream.position
        ∧ walkedAfter
            (st.handleStreamData source sid (StreamDataPayload.charPosition q r t m))
            source = some (u.stats.metersWalked ++ [q.distSq stream.position]))
    ∧ ((q.inUnitBox || stream.position.inUnitBox) = false →
        ¬ q.distSq stream.position < 100 →
        streamPositionAfter
            (st.handleStreamData source sid (StreamDataPayload.charPosition q r t m))
            source sid = some q
        ∧ walkedAfter
            (st.handleStreamData source sid (StreamDataPayload.charPosition q r t m))
            source = some u.stats.metersWalked) :=
  handleCharPos_run st source sid u stream q r t m hself hu hs hty hchar huid

/-- A peer CHARACTER stream (sid 11 of user 42) standing at (5, 0, 0). -/
def cxStream : StreamRegister :=
  { type := StreamType.character, originSourceId := 42, originStreamId := 11
    name := asciiBytes ("default"), position := { x := 5, y := 0, z := 0 } }

/-- The registry entry of peer 42, owning `cxStream` as its character
stream, with an empty walked accumulator. -/
def cxUser : User :=
  { info := { sampleInfo with uniqueId := 42 }, characterStreamId := 11
    streams := [((11 : Int), cxStream)] }

/-- A connection state (bot uid 1) whose registry holds peer 42. -/
def cxState : ConnState :=
  { userInfo := { sampleInfo with uniqueId := 1 }
    users := [((42 : Int), cxUser)] }

/-- Claim C1 counterexample.  Prior position p = (5,0,0).
First run: q = (10,0,0), |q-p| = 5 ≥ 1 m, so the claim requires the
stored position to become q and the accumulator to grow — but the code
leaves the position at p (the squared distance 25 is below the 100
threshold, and neither point is inside the unit box, so only the
accumulator changes).  Second run: q = (5, 1/2, 0), |q-p| = 0.5 < 1 m,
so the claimed dead-band requires position and accumulator unchanged —
but the code appends the squared increment 1/4 to the walked
accumulator. -/
theorem charPositionDeadband_counterexample :
    ((1 : ℚ) ≤ Vector3.distSq { x := 10, y := 0, z := 0 } { x := 5, y := 0, z := 0 }
      ∧ streamPositionAfter
          (cxState.handleStreamData 42 11
            (StreamDataPayload.charPosition { x := 10, y := 0, z := 0 } 0 0 []))
          42 11 = some { x := 5, y := 0, z := 0 }
      ∧ ¬ streamPositionAfter
          (cxState.handleStreamData 42 11
            (StreamDataPayload.charPosition { x := 10, y := 0, z := 0 } 0 0 []))
          42 11 = some { x := 10, y := 0, z := 0 })
    ∧ (Vector3.distSq { x := 5, y := 1 / 2, z := 0 } { x := 5, y := 0, z := 0 } < 1
      ∧ walkedAfter
          (cxState.handleStreamData 42 11
            (StreamDataPayload.charPosition { x := 5, y := 1 / 2, z := 0 } 0 0 []))
          42 = some [1 / 4]
      ∧ ¬ walkedAfter
          (cxState.handleStreamData 42 11
            (StreamDataPayload.charPosition { x := 5, y := 1 / 2, z := 0 } 0 0 []))
          42 = some cxUser.stats.metersWalked) := by
  obtain ⟨-, -, -, hmid1, -⟩ := handleCharPos_run cxState 42 11 cxUser cxStream
    { x := 10, y := 0, z := 0 } 0 0 [] (by decide) rfl rfl rfl rfl rfl
  obtain ⟨-, -, -, hmid2, -⟩ := handleCharPos_run cxState 42 11 cxUser cxStream
    { x := 5, y := 1 / 2, z := 0 } 0 0 [] (by decide) rfl rfl rfl rfl rfl
  obtain ⟨hpos1, hw1⟩ := hmid1 (by norm_num [Vector3.inUnitBox, cxStream])
    (by norm_num [Vector3.distSq, cxStream])
  obtain ⟨hpos2, hw2⟩ := hmid2 (by norm_num [Vector3.inUnitBox, cxStream])
    (by norm_num [Vector3.distSq, cxStream])
  refine ⟨⟨by norm_num [Vector3.distSq], hpos1, ?_⟩,
          ⟨by norm_num [Vector3.distSq], ?_, ?_⟩⟩
  · intro hcon
    rw [hpos1] at hcon
    simp only [Option.some.injEq] at hcon
    have hx := congrArg Vector3.x hcon
    norm_num [cxStream] at hx
  · rw [hw2]
    norm_num [Vector3.distSq, cxStream, cxUser]
  · intro hcon
    rw [hw2] at hcon
    simp only [Option.some.injEq] at hcon
    have hlen := congrArg List.length hcon
    simp at hlen

/-- Claim C1 witness (for the amended statement): a 2 m step from
(5,0,0) to (5,2,0) keeps the stored position, appends the squared
increment 4 to the walked accumulator, and sets the current stream. -/
theorem charPositionStreamData_spec_witness :
    streamPositionAfter
        (cxState.handleStreamData 42 11
          (StreamDataPayload.charPosition { x := 5, y := 2, z := 0 } 0 0 []))
        42 11 = some { x := 5, y := 0, z := 0 }
    ∧ walkedAfter
        (cxState.handleStreamData 42 11
          (StreamDataPayload.charPosition { x := 5, y := 2, z := 0 } 0 0 []))
        42 = some [4]
    ∧ currentStreamAfter
        (cxState.handleStreamData 42 11
          (StreamDataPayload.charPosition { x := 5, y := 2, z := 0 } 0 0 []))
        42 = some { uniqueId := 42, streamId := 11 } := by
  have h := charPositionStreamData_spec cxState 42 11 cxUser cxStream
    { x := 5, y := 2, z := 0 } 0 0 [] (by decide) rfl rfl rfl rfl rfl
  obtain ⟨hcur, hrot, hbox, hmid, hfar⟩ := h
  obtain ⟨hpos, hwalk⟩ := hmid (by norm_num [Vector3.inUnitBox, cxStream])
    (by norm_num [Vector3.distSq, cxStream])
  refine ⟨hpos, ?_, hcur⟩
  rw [hwalk]
  norm_num [Vector3.distSq, cxStream, cxUser]

end RoRBot
